import Mathlib

/-!
Verification of the invoice-generator service against its specification.

The Python sources are shallowly embedded: numeric amounts (Python floats
holding money values and percentage rates) are modelled as exact rationals,
`round(x, 2)` is modelled as round-half-to-even at two decimals, database
tables are lists of rows, and each route handler becomes a pure function
from its inputs (and the database list) to an `Except`-style result.
-/

set_option maxRecDepth 10000

namespace InvoiceGen

/-! ## Python `round(x, 2)` (banker's rounding at two decimal places) -/

/-- Round a rational to the nearest integer, ties to even
(the rounding mode of Python's built-in `round`). -/
def roundHalfEven (q : ℚ) : ℤ :=
  let f : ℤ := Int.floor q
  let frac : ℚ := q - (f : ℚ)
  if frac < 1/2 then f
  else if 1/2 < frac then f + 1
  else if f % 2 = 0 then f else f + 1

/-- The integer number of cents of `round(q, 2)`. -/
def pyCents (q : ℚ) : ℤ := roundHalfEven (q * 100)

/-- Python's `round(q, 2)`. -/
def pyRound2 (q : ℚ) : ℚ := (pyCents q : ℚ) / 100

theorem roundHalfEven_intCast (n : ℤ) : roundHalfEven (n : ℚ) = n := by
  simp [roundHalfEven]

theorem pyRound2_intCast (n : ℤ) : pyRound2 (n : ℚ) = n := by
  have h : ((n : ℚ) * 100) = ((n * 100 : ℤ) : ℚ) := by push_cast; ring
  simp only [pyRound2, pyCents, h, roundHalfEven_intCast]
  push_cast
  ring

/-! ## Invoice line items (src/app/schemas/invoice.py, `InvoiceItem`)

An item carries a precomputed `total = round(quantity * price, 2)`;
the create handler copies that field verbatim into the stored item dict. -/

structure InvoiceItem where
  name : String
  description : Option String
  quantity : ℚ
  price : ℚ
  total : ℚ
deriving DecidableEq, Repr

/-! ## Totals (src/app/services/pdf_service.py, `PDFGenerator.calculate_totals`) -/

structure Totals where
  subtotal : ℚ
  discount_amount : ℚ
  tax_amount : ℚ
  total : ℚ
deriving DecidableEq, Repr

/-- `PDFGenerator.calculate_totals` (pdf_service.py lines 26-57):
subtotal sums the items' precomputed `total` fields, then discount, tax
and grand total are computed with `round(_, 2)` at each step. -/
def calculate_totals (items : List InvoiceItem) (tax_rate discount_rate : ℚ) : Totals :=
  let subtotal := (items.map (fun i => i.total)).sum
  let discount_amount := pyRound2 (subtotal * (discount_rate / 100))
  let subtotal_after_discount := subtotal - discount_amount
  let tax_amount := pyRound2 (subtotal_after_discount * (tax_rate / 100))
  let total := pyRound2 (subtotal_after_discount + tax_amount)
  ⟨subtotal, discount_amount, tax_amount, total⟩

/-- The inline totals computation of the create-invoice handler
(api/invoices.py lines 75-80), kept as its own definition because the API
layer repeats the arithmetic instead of calling the PDF service. -/
def create_invoice_totals (items : List InvoiceItem) (tax_rate discount_rate : ℚ) : Totals :=
  let subtotal := (items.map (fun i => i.total)).sum
  let discount_amount := pyRound2 (subtotal * (discount_rate / 100))
  let subtotal_after_discount := subtotal - discount_amount
  let tax_amount := pyRound2 (subtotal_after_discount * (tax_rate / 100))
  let total := pyRound2 (subtotal_after_discount + tax_amount)
  ⟨subtotal, discount_amount, tax_amount, total⟩

/-! ## The invoice table (src/app/models/invoice.py)

One row of the `invoices` table. Timestamps are seconds as integers. -/

structure Invoice where
  id : Nat
  invoice_number : String
  user_id : Nat
  client_name : String
  client_email : String
  client_phone : Option String
  client_address : Option String
  language : String
  currency : String
  items : List InvoiceItem
  subtotal : ℚ
  tax_rate : ℚ
  tax_amount : ℚ
  discount_rate : ℚ
  discount_amount : ℚ
  total : ℚ
  issue_date : Int
  due_date : Option Int
  pdf_path : Option String
  qr_code_path : Option String
  payment_link : Option String
  status : String
  is_sent_email : Bool
  email_sent_at : Option Int
  paid_at : Option Int
  notes : Option String
  internal_notes : Option String
  created_at : Int
  updated_at : Int
deriving DecidableEq, Repr

/-- The ownership lookup every invoice handler begins with:
`db.query(Invoice).filter(Invoice.id == invoice_id, Invoice.user_id == current_user.id).first()`. -/
def find_owned (db : List Invoice) (invoice_id : Nat) (uid : Nat) : Option Invoice :=
  db.find? (fun i => i.id == invoice_id && i.user_id == uid)

/-- An HTTP error raised by a handler (`HTTPException(status_code, detail)`). -/
structure HTTPError where
  code : Nat
  detail : String
deriving DecidableEq, Repr

/-- Python truthiness of an `Option String` field used in
`if not invoice.pdf_path:` — `None` and the empty string are falsy. -/
def optStrFalsy : Option String → Bool
  | none => true
  | some s => s.isEmpty

/-- Python's `a or b` for an optional string `a` and a string `b`. -/
def orElseStr (a : Option String) (b : String) : String :=
  match a with
  | some s => if s.isEmpty then b else s
  | none => b

/-! ## Email rate limiting (src/app/utils/helpers.py, `validate_email_rate_limit`) -/

structure RateLimitResult where
  allowed : Bool
  remaining : Int
  limit : Int
  count : Int
  reset_in_minutes : Int
deriving DecidableEq, Repr

/-- `validate_email_rate_limit(user_id, db_session, hours=1, limit=settings.EMAIL_RATE_LIMIT)`
(helpers.py lines 54-83). Counts the user's invoices with
`is_sent_email = true` and `email_sent_at >= now - hours`; in SQL a NULL
`email_sent_at` never satisfies the comparison. `now` is the current time
in seconds; the configured default limit is 5. -/
def validate_email_rate_limit (db : List Invoice) (user_id : Nat) (now : Int)
    (hours : Int := 1) (limit : Int := 5) : RateLimitResult :=
  let time_threshold := now - hours * 3600
  let count : Int := ((db.filter (fun i =>
    i.user_id == user_id && i.is_sent_email &&
      (match i.email_sent_at with
       | some t => decide (time_threshold ≤ t)
       | none => false))).length : Int)
  { allowed := decide (count < limit)
    remaining := max 0 (limit - count)
    limit := limit
    count := count
    reset_in_minutes := 60 * hours }

/-- The send-email handler guards with `if not validate_email_rate_limit(...)`.
The helper returns a five-key dict, and a non-empty Python dict is always
truthy, so this test is true for every possible result. -/
def rate_limit_result_truthy (_ : RateLimitResult) : Bool := true

/-! ## Health check (src/app/main.py, `health_check`, lines 594-675) -/

structure HealthStatus where
  status : String
  database_check : String
  filesystem_check : String
  email_check : String
  http_status : Nat
deriving DecidableEq, Repr

/-- The `/health` handler, parameterised by whether the database query,
the filesystem write/delete round-trip, and the SMTP configuration test
succeed. The overall status starts as "healthy"; the database failure
branch sets it to "unhealthy", while the filesystem failure branch only
records its own sub-check (main.py lines 653-658 do not assign
`health_status["status"]`). The HTTP code is 200 iff the overall status
string is "healthy". -/
def health_check (db_ok fs_ok smtp_configured : Bool) : HealthStatus :=
  let overall0 := "healthy"
  let overall1 := if db_ok then overall0 else "unhealthy"
  let database_check := if db_ok then "healthy" else "unhealthy"
  let filesystem_check := if fs_ok then "healthy" else "unhealthy"
  let email_check := if smtp_configured then "configured" else "not_configured"
  let http_status := if overall1 == "healthy" then 200 else 503
  ⟨overall1, database_check, filesystem_check, email_check, http_status⟩

/-! ## Password hashing (src/app/services/auth_service.py)

bcrypt and SHA-256 are external cryptographic primitives; the embedding
abstracts them as function parameters and keeps the repository's own
control flow: inputs whose UTF-8 byte length exceeds 72 are first
replaced by their SHA-256 hex digest. -/

/-- The shared pre-hash step of auth_service.py (lines 37-39 and 56-58):
`if len(password.encode('utf-8')) > 72: password = hashlib.sha256(...).hexdigest()`. -/
def bcrypt_prehash (sha256_hexdigest : String → String) (password : String) : String :=
  if 72 < password.utf8ByteSize then sha256_hexdigest password else password

/-- `hash_password` (auth_service.py lines 17-41): pre-hash, then bcrypt. -/
def hash_password (bcrypt_hash : String → String) (sha256_hexdigest : String → String)
    (password : String) : String :=
  bcrypt_hash (bcrypt_prehash sha256_hexdigest password)

/-- `verify_password` (auth_service.py lines 44-60): the identical pre-hash,
then bcrypt verification against the stored hash. -/
def verify_password (bcrypt_verify : String → String → Bool)
    (sha256_hexdigest : String → String) (plain_password hashed_password : String) : Bool :=
  bcrypt_verify (bcrypt_prehash sha256_hexdigest plain_password) hashed_password

/-! ## Registration password validation (src/app/schemas/auth.py, `UserRegister`)

The register route (api/auth.py) imports `UserRegister` from
`app.schemas.auth`, whose password field is
`Field(..., min_length=8, max_length=100)`; Pydantic's length constraints
count characters. -/

def register_password_ok (p : String) : Bool :=
  decide (8 ≤ p.length) && decide (p.length ≤ 100)

/-! ## Currency formatting (src/app/utils/helpers.py, `format_currency`) -/

/-- Split a reversed digit list into groups of three (for Python's
thousands separator in `f"\x7bamount:,.2f\x7d"`). -/
def chunk3 : List Char → List (List Char)
  | [] => []
  | a :: b :: c :: rest => [a, b, c] :: chunk3 rest
  | l => [l]

/-- Render a natural number with `,` thousands separators. -/
def thousandsSep (n : Nat) : String :=
  let rev := (Nat.repr n).data.reverse
  String.intercalate "," (((chunk3 rev).map (fun g => String.mk g.reverse)).reverse)

/-- Two-digit rendering of a number of cents below 100. -/
def twoDigits (n : Nat) : String :=
  if n < 10 then "0" ++ Nat.repr n else Nat.repr n

/-- Render a number of cents the way Python formats `cents/100` with
`f"\x7bamount:,.2f\x7d"`. -/
def fmtCents (cents : Int) : String :=
  let sign := if cents < 0 then "-" else ""
  let n := cents.natAbs
  sign ++ thousandsSep (n / 100) ++ "." ++ twoDigits (n % 100)

/-- Python's `f"\x7bamount:,.2f\x7d"` on a rational amount. -/
def formatFloat2 (amount : ℚ) : String := fmtCents (pyCents amount)

/-- The symbol table lookup `symbols.get(currency, currency)`
(helpers.py lines 31-45). -/
def currency_symbol (currency : String) : String :=
  let symbols : List (String × String) :=
    [("MAD", "DH"), ("USD", "$"), ("EUR", "€"), ("SAR", "SAR"),
     ("AED", "AED"), ("GBP", "£"), ("JPY", "¥")]
  (((symbols.find? (fun p => p.1 == currency)).map (fun p => p.2)).getD currency)

/-- `format_currency(amount, currency, include_symbol=True)`
(helpers.py lines 27-51): dollar, euro and pound symbols go before the
amount, every other symbol goes after it. -/
def format_currency (amount : ℚ) (currency : String) (include_symbol : Bool := true) : String :=
  let formatted_amount := formatFloat2 amount
  if include_symbol then
    if currency ∈ (["USD", "EUR", "GBP"] : List String) then
      currency_symbol currency ++ formatted_amount
    else
      formatted_amount ++ " " ++ currency_symbol currency
  else
    formatted_amount ++ " " ++ currency

/-! ## Invoice route handlers (src/app/api/invoices.py)

Each handler is a pure function of the database list and its request
inputs. Mutating handlers return the new database list inside `.ok`;
an `.error` result leaves the database untouched (the Python code raises
before any mutation). File unlinking in the delete handler is filesystem
I/O outside this model and does not affect the rows. -/

/-- `GET /invoices/(id)` (invoices.py lines 164-187). -/
def get_invoice (db : List Invoice) (uid : Nat) (invoice_id : Nat) :
    Except HTTPError Invoice :=
  match find_owned db invoice_id uid with
  | none => .error ⟨404, "Invoice not found"⟩
  | some inv => .ok inv

/-- `GET /invoices/(id)/download` (invoices.py lines 241-273): returns the
file path and the attachment filename. -/
def download_invoice (db : List Invoice) (uid : Nat) (invoice_id : Nat) :
    Except HTTPError (String × String) :=
  match find_owned db invoice_id uid with
  | none => .error ⟨404, "Invoice not found"⟩
  | some inv =>
    if optStrFalsy inv.pdf_path then .error ⟨404, "PDF not generated yet"⟩
    else .ok (inv.pdf_path.getD "", "invoice_" ++ inv.invoice_number ++ ".pdf")

/-- Descending creation-time order (`order_by(Invoice.created_at.desc())`). -/
def created_desc (a b : Invoice) : Prop := b.created_at ≤ a.created_at

instance : DecidableRel created_desc := fun a b => Int.decLe b.created_at a.created_at

instance : IsTotal Invoice created_desc := ⟨fun a b => Int.le_total b.created_at a.created_at⟩

instance : IsTrans Invoice created_desc :=
  ⟨fun _ _ _ h1 h2 => Int.le_trans h2 h1⟩

/-- The row filter of the list handler: the user's invoices, further
filtered by status when the `status` query value is truthy
(`if status:` — `None` and the empty string both skip the filter). -/
def list_filter (db : List Invoice) (uid : Nat) (status : Option String) : List Invoice :=
  let query := db.filter (fun i => i.user_id == uid)
  match status with
  | some s => if s.isEmpty then query else query.filter (fun i => i.status == s)
  | none => query

/-- The dict literal the list handler returns (invoices.py lines
233-238): exactly the keys `invoices`, `total`, `page`, `page_size`.
This is the handler's return value, not the wired response model —
serialization through that model is `list_invoices_route` below. -/
structure ListHandlerDict where
  invoices : List Invoice
  total : Nat
  page : Int
  page_size : Int
deriving DecidableEq, Repr

/-- The body of the `GET /invoices/` handler (invoices.py lines
190-238): coerce the pagination values, filter, count, order by
creation time descending, and slice
`offset((page-1)*page_size).limit(page_size)`. Its returned dict still
passes through response-model validation before reaching the client
(`list_invoices_route`). -/
def list_invoices (db : List Invoice) (uid : Nat) (page page_size : Int)
    (status : Option String) : ListHandlerDict :=
  let page := if page < 1 then 1 else page
  let page_size := if page_size < 1 || page_size > 100 then 10 else page_size
  let query := list_filter db uid status
  let total := query.length
  let sorted := List.insertionSort created_desc query
  let items := (sorted.drop ((page - 1) * page_size).toNat).take page_size.toNat
  ⟨items, total, page, page_size⟩

/-- The keys of the dict the list handler returns (invoices.py lines 233-238). -/
def list_handler_fields : List String := ["invoices", "total", "page", "page_size"]

/-- The required fields of the response model the route is wired to,
`InvoiceListResponse` of schemas/invoice.py (lines 326-337): every one of
the five is declared required with `Field(...)`, including `total_pages`
at line 332. -/
def invoice_list_response_required_fields : List String :=
  ["invoices", "total", "page", "page_size", "total_pages"]

/-- FastAPI validates a handler's return value against the route's
declared `response_model`; a required field missing from the returned
dict raises a ResponseValidationError, surfaced to the client as a 500. -/
def response_fields_ok (provided required : List String) : Bool :=
  required.all (fun f => provided.contains f)

/-- `GET /invoices/` as observed by the client: the handler's dict is
serialized through the wired `InvoiceListResponse` model; since the dict
has no `total_pages` entry, this validation step fails. -/
def list_invoices_route (db : List Invoice) (uid : Nat) (page page_size : Int)
    (status : Option String) : Except HTTPError ListHandlerDict :=
  if response_fields_ok list_handler_fields invoice_list_response_required_fields then
    .ok (list_invoices db uid page page_size status)
  else
    .error ⟨500, "ResponseValidationError"⟩

/-- Request body of the send-email route (schemas/invoice.py, `EmailInvoice`). -/
structure EmailInvoice where
  to_email : Option String
  subject : Option String
  message : Option String
  cc : Option (List String)
deriving DecidableEq, Repr

structure SendEmailOk where
  message : String
  recipient : String
  invoice_number : String
deriving DecidableEq, Repr

/-- `POST /invoices/(id)/send-email` (invoices.py lines 276-350).
The first guard is Python's `if not validate_email_rate_limit(current_user.id, db):`;
the rate-limit helper returns a dict, so the guard tests the truthiness of
a non-empty dict. Then ownership, then the PDF guard; on success the email
is queued as a background task and the row is optimistically marked sent,
promoting a `draft` status to `sent`. -/
def send_invoice_by_email (db : List Invoice) (uid : Nat) (invoice_id : Nat)
    (email_data : EmailInvoice) (now : Int) :
    Except HTTPError (List Invoice × SendEmailOk) :=
  if !rate_limit_result_truthy (validate_email_rate_limit db uid now) then
    .error ⟨429, "Email rate limit exceeded. Maximum 5 emails per hour."⟩
  else
    match find_owned db invoice_id uid with
    | none => .error ⟨404, "Invoice not found"⟩
    | some inv =>
      if optStrFalsy inv.pdf_path then .error ⟨400, "PDF not generated"⟩
      else
        let recipient := orElseStr email_data.to_email inv.client_email
        let inv1 : Invoice :=
          { inv with
            is_sent_email := true
            email_sent_at := some now
            status := if inv.status == "draft" then "sent" else inv.status }
        let db1 := db.map (fun i => if i.id == inv.id then inv1 else i)
        .ok (db1, ⟨"Email is being sent", recipient, inv.invoice_number⟩)

/-- Request body of the update route (schemas/invoice.py, `InvoiceUpdate`):
all fields optional; `status` is serialized to its string value.
`internal_notes` exists on the schema but the handler never applies it. -/
structure InvoiceUpdate where
  client_name : Option String
  client_email : Option String
  client_phone : Option String
  client_address : Option String
  status : Option String
  notes : Option String
  internal_notes : Option String
  due_date : Option Int
deriving DecidableEq, Repr

/-- True when the request body applies at least one of the seven guarded
fields, in which case the handler's `db.commit()` issues an UPDATE for
the row. -/
def updateApplied (u : InvoiceUpdate) : Bool :=
  u.client_name.isSome || u.client_email.isSome || u.client_phone.isSome ||
    u.client_address.isSome || u.status.isSome || u.notes.isSome || u.due_date.isSome

/-- The field assignments of the update handler (invoices.py lines
377-391): seven independent `if update_data.x is not None: invoice.x = x`
guards, written here as one simultaneous record update, followed by the
commit. The `updated_at` column is declared with
`onupdate=datetime.utcnow` (models/invoice.py lines 98-103), so the
UPDATE issued when at least one field is applied also stamps
`updated_at` with the current time `now`. -/
def applyInvoiceUpdate (inv : Invoice) (u : InvoiceUpdate) (now : Int) : Invoice :=
  { inv with
    client_name := u.client_name.getD inv.client_name
    client_email := u.client_email.getD inv.client_email
    client_phone := match u.client_phone with
      | some v => some v
      | none => inv.client_phone
    client_address := match u.client_address with
      | some v => some v
      | none => inv.client_address
    status := u.status.getD inv.status
    notes := match u.notes with
      | some v => some v
      | none => inv.notes
    due_date := match u.due_date with
      | some v => some v
      | none => inv.due_date
    updated_at := if updateApplied u then now else inv.updated_at }

/-- `PUT /invoices/(id)` (invoices.py lines 353-396). -/
def update_invoice (db : List Invoice) (uid : Nat) (invoice_id : Nat)
    (update_data : InvoiceUpdate) (now : Int) : Except HTTPError (List Invoice × Invoice) :=
  match find_owned db invoice_id uid with
  | none => .error ⟨404, "Invoice not found"⟩
  | some inv =>
    let inv1 := applyInvoiceUpdate inv update_data now
    .ok (db.map (fun i => if i.id == inv.id then inv1 else i), inv1)

/-- `DELETE /invoices/(id)` (invoices.py lines 399-432): removes the found
row (and unlinks its files on disk, outside this model). -/
def delete_invoice (db : List Invoice) (uid : Nat) (invoice_id : Nat) :
    Except HTTPError (List Invoice) :=
  match find_owned db invoice_id uid with
  | none => .error ⟨404, "Invoice not found"⟩
  | some _ => .ok (db.eraseP (fun i => i.id == invoice_id && i.user_id == uid))

end InvoiceGen

namespace InvoiceGen

/-- C1: for every item list, tax rate and discount rate, the totals
calculation returns subtotal = Σ item.total, discount = round(subtotal ·
discount/100, 2), tax = round((subtotal − discount) · tax/100, 2) and
total = round(subtotal − discount + tax, 2); the API-layer copy of the
arithmetic agrees with the PDF service's; and on one item of quantity 1
and price 100 with tax 10 % and no discount it yields subtotal 100,
tax 10.00 and total 110.00. -/
theorem C1_invoice_totals_formula (items : List InvoiceItem) (tax_rate discount_rate : ℚ) :
    (calculate_totals items tax_rate discount_rate).subtotal
        = (items.map (fun i => i.total)).sum ∧
    (calculate_totals items tax_rate discount_rate).discount_amount
        = pyRound2 ((items.map (fun i => i.total)).sum * (discount_rate / 100)) ∧
    (calculate_totals items tax_rate discount_rate).tax_amount
        = pyRound2 (((items.map (fun i => i.total)).sum
            - pyRound2 ((items.map (fun i => i.total)).sum * (discount_rate / 100)))
              * (tax_rate / 100)) ∧
    (calculate_totals items tax_rate discount_rate).total
        = pyRound2 (((items.map (fun i => i.total)).sum
            - pyRound2 ((items.map (fun i => i.total)).sum * (discount_rate / 100)))
          + (calculate_totals items tax_rate discount_rate).tax_amount) ∧
    create_invoice_totals items tax_rate discount_rate
        = calculate_totals items tax_rate discount_rate ∧
    calculate_totals [⟨"item", none, 1, 100, 100⟩] 10 0 = ⟨100, 0, 10, 110⟩ := by
  refine ⟨rfl, rfl, rfl, rfl, rfl, ?_⟩
  have h100 : ((100 : ℤ) : ℚ) = (100 : ℚ) := by norm_num
  have h0 : pyRound2 ((100 : ℚ) * (0 / 100)) = 0 := by
    have : ((100 : ℚ) * (0 / 100)) = ((0 : ℤ) : ℚ) := by norm_num
    rw [this, pyRound2_intCast]; norm_num
  have h10 : pyRound2 (((100 : ℚ) - 0) * (10 / 100)) = 10 := by
    have : (((100 : ℚ) - 0) * (10 / 100)) = ((10 : ℤ) : ℚ) := by norm_num
    rw [this, pyRound2_intCast]; norm_num
  have h110 : pyRound2 (((100 : ℚ) - 0) + 10) = 110 := by
    have : (((100 : ℚ) - 0) + 10) = ((110 : ℤ) : ℚ) := by norm_num
    rw [this, pyRound2_intCast]; norm_num
  show Totals.mk _ _ _ _ = _
  simp only [calculate_totals, List.map_cons, List.map_nil, List.sum_cons, List.sum_nil,
    add_zero]
  rw [h0]
  rw [h10]
  rw [h110]

/-! ## Concrete fixtures used by witnesses and counterexamples -/

/-- A stored draft invoice of user 1 with a generated PDF. -/
def baseInvoice : Invoice :=
  { id := 1
    invoice_number := "INV-20251010-0001"
    user_id := 1
    client_name := "ACME"
    client_email := "billing@acme.com"
    client_phone := none
    client_address := none
    language := "en"
    currency := "USD"
    items := [⟨"item", none, 1, 100, 100⟩]
    subtotal := 100
    tax_rate := 10
    tax_amount := 10
    discount_rate := 0
    discount_amount := 0
    total := 110
    issue_date := 0
    due_date := none
    pdf_path := some "uploads/invoices/invoice_INV-20251010-0001.pdf"
    qr_code_path := none
    payment_link := none
    status := "draft"
    is_sent_email := false
    email_sent_at := none
    paid_at := none
    notes := none
    internal_notes := none
    created_at := 0
    updated_at := 0 }

/-- An invoice of user 1 already emailed at second 1000. -/
def sentInvoice (k : Nat) : Invoice :=
  { baseInvoice with
    id := k
    invoice_number := "INV-20251010-000" ++ Nat.repr k
    status := "sent"
    is_sent_email := true
    email_sent_at := some 1000 }

/-- Five invoices emailed inside the trailing hour plus a sixth draft
invoice with a PDF, all owned by user 1. -/
def c2_db : List Invoice :=
  [sentInvoice 1, sentInvoice 2, sentInvoice 3, sentInvoice 4, sentInvoice 5,
   { baseInvoice with id := 6 }]

def emptyEmailBody : EmailInvoice := ⟨none, none, none, none⟩

def emptyUpdateBody : InvoiceUpdate := ⟨none, none, none, none, none, none, none, none⟩

def exceptIsOk : Except HTTPError (List Invoice × SendEmailOk) → Bool
  | .ok _ => true
  | .error _ => false

/-- C2: at a state where user 1 already sent five invoice emails inside
the trailing hour (the configured limit), the rate-limit helper reports
the user as over the limit, yet the send handler does not take the 429
branch: `if not validate_email_rate_limit(...)` tests the truthiness of a
non-empty dict, which is always true, so the send succeeds and mutates
the invoice — contradicting the route's own documented rate limit. -/
theorem C2_rate_limit_never_enforced :
    (validate_email_rate_limit c2_db 1 2000).allowed = false ∧
    (validate_email_rate_limit c2_db 1 2000).count = 5 ∧
    exceptIsOk (send_invoice_by_email c2_db 1 6 emptyEmailBody 2000) = true := by
  refine ⟨?_, ?_, ?_⟩ <;> decide

/-- C3: for every database in which every row with the requested id
belongs to user A, an authenticated user B distinct from A gets
404 "Invoice not found" (never 403) from retrieve, download, send-email,
update and delete; since the mutating handlers only return a new database
inside `.ok`, the error leaves every invoice unchanged. -/
theorem C3_ownership_not_found (db : List Invoice) (ownerA userB invoice_id : Nat)
    (hown : ∀ j ∈ db, j.id = invoice_id → j.user_id = ownerA)
    (hBA : userB ≠ ownerA)
    (update_data : InvoiceUpdate) (email_data : EmailInvoice) (now : Int) :
    get_invoice db userB invoice_id = .error ⟨404, "Invoice not found"⟩ ∧
    download_invoice db userB invoice_id = .error ⟨404, "Invoice not found"⟩ ∧
    send_invoice_by_email db userB invoice_id email_data now
        = .error ⟨404, "Invoice not found"⟩ ∧
    update_invoice db userB invoice_id update_data now = .error ⟨404, "Invoice not found"⟩ ∧
    delete_invoice db userB invoice_id = .error ⟨404, "Invoice not found"⟩ := by
  have hfind : find_owned db invoice_id userB = none := by
    apply List.find?_eq_none.mpr
    intro j hj h
    rw [Bool.and_eq_true, beq_iff_eq, beq_iff_eq] at h
    exact hBA (h.2.symm.trans (hown j hj h.1))
  refine ⟨?_, ?_, ?_, ?_, ?_⟩ <;>
    simp [get_invoice, download_invoice, send_invoice_by_email, update_invoice,
      delete_invoice, rate_limit_result_truthy, hfind]

/-- Witness for C3 at a one-invoice database owned by user 1, queried by
user 2. -/
theorem C3_ownership_not_found_witness :
    get_invoice [baseInvoice] 2 1 = .error ⟨404, "Invoice not found"⟩ ∧
    download_invoice [baseInvoice] 2 1 = .error ⟨404, "Invoice not found"⟩ ∧
    send_invoice_by_email [baseInvoice] 2 1 emptyEmailBody 0
        = .error ⟨404, "Invoice not found"⟩ ∧
    update_invoice [baseInvoice] 2 1 emptyUpdateBody 0 = .error ⟨404, "Invoice not found"⟩ ∧
    delete_invoice [baseInvoice] 2 1 = .error ⟨404, "Invoice not found"⟩ :=
  C3_ownership_not_found [baseInvoice] 1 2 1 (by decide) (by decide)
    emptyUpdateBody emptyEmailBody 0

/-- C4 counterexample: with the database check passing and the filesystem
check failing, the handler reports "healthy" overall with HTTP 200, while
the claim demands "unhealthy" and 503; the failing filesystem branch of
main.py (lines 653-658) never assigns the overall status. -/
theorem C4_counterexample :
    (health_check true false true).status = "healthy" ∧
    (health_check true false true).filesystem_check = "unhealthy" ∧
    (health_check true false true).http_status = 200 ∧
    (health_check true false true).status ≠ "unhealthy" ∧
    (health_check true false true).http_status ≠ 503 := by
  refine ⟨?_, ?_, ?_, ?_, ?_⟩ <;> decide

/-- C4 amended: the overall status is "unhealthy" with HTTP 503 exactly
when the database check fails; a failing filesystem check only marks its
own sub-check "unhealthy" and never affects the overall status, and the
SMTP configuration check never affects the overall status or HTTP code. -/
theorem C4_amended_health (db_ok fs_ok smtp_configured : Bool) :
    ((health_check db_ok fs_ok smtp_configured).status
        = if db_ok then "healthy" else "unhealthy") ∧
    ((health_check db_ok fs_ok smtp_configured).http_status
        = if db_ok then 200 else 503) ∧
    ((health_check db_ok fs_ok smtp_configured).database_check
        = if db_ok then "healthy" else "unhealthy") ∧
    ((health_check db_ok fs_ok smtp_configured).filesystem_check
        = if fs_ok then "healthy" else "unhealthy") ∧
    ((health_check db_ok fs_ok smtp_configured).email_check
        = if smtp_configured then "configured" else "not_configured") ∧
    (health_check db_ok fs_ok true).status = (health_check db_ok fs_ok false).status ∧
    (health_check db_ok fs_ok true).http_status
        = (health_check db_ok fs_ok false).http_status := by
  cases db_ok <;> cases fs_ok <;> cases smtp_configured <;> decide

/-- C5: for every bcrypt implementation satisfying its hash/verify
round-trip and every SHA-256 rendering, `verify_password` accepts
`hash_password`'s output for every password, because both paths apply the
identical SHA-256 pre-hash to inputs whose UTF-8 encoding exceeds
72 bytes before delegating to bcrypt. -/
theorem C5_password_roundtrip (bcrypt_hash : String → String)
    (bcrypt_verify : String → String → Bool) (sha256_hexdigest : String → String)
    (hbcrypt : ∀ s, bcrypt_verify s (bcrypt_hash s) = true) (password : String) :
    verify_password bcrypt_verify sha256_hexdigest password
        (hash_password bcrypt_hash sha256_hexdigest password) = true ∧
    (72 < password.utf8ByteSize →
      bcrypt_prehash sha256_hexdigest password = sha256_hexdigest password) := by
  constructor
  · exact hbcrypt (bcrypt_prehash sha256_hexdigest password)
  · intro h
    simp [bcrypt_prehash, h]

def longPassword : String := String.mk (List.replicate 200 'a')

/-- Witness for C5 at a 200-character ASCII password (UTF-8 length 200,
beyond the 72-byte bcrypt ceiling), instantiating bcrypt with a
round-tripping pair. -/
theorem C5_password_roundtrip_witness :
    72 < longPassword.utf8ByteSize ∧
    verify_password (fun s h => s == h) (fun _ => "digest") longPassword
        (hash_password (fun s => s) (fun _ => "digest") longPassword) = true :=
  ⟨by decide,
   (C5_password_roundtrip (fun s => s) (fun s h => s == h) (fun _ => "digest")
      (fun s => by simp) longPassword).1⟩

theorem formatFloat2_100 : formatFloat2 (100 : ℚ) = "100.00" := by
  have hc : pyCents (100 : ℚ) = 10000 := by
    unfold pyCents roundHalfEven
    norm_num
  unfold formatFloat2
  rw [hc]
  decide

theorem formatFloat2_50_5 : formatFloat2 (50.5 : ℚ) = "50.50" := by
  have hc : pyCents (50.5 : ℚ) = 5050 := by
    unfold pyCents roundHalfEven
    norm_num
  unfold formatFloat2
  rw [hc]
  decide

/-- C6 counterexample: the code places the dollar symbol before the
amount (`f"(symbol)(formatted_amount)"` for USD/EUR/GBP), so
`format_currency(100, "USD")` is "$100.00", not the "100.00 $" the claim
asserts. -/
theorem C6_counterexample :
    format_currency 100 "USD" true = "$100.00" ∧
    format_currency 100 "USD" true ≠ "100.00 $" := by
  have h1 : format_currency 100 "USD" true = "$100.00" := by
    unfold format_currency
    simp only [formatFloat2_100]
    decide
  exact ⟨h1, by rw [h1]; decide⟩

/-- C6 amended: `format_currency` with symbols maps the known codes
through the table (MAD→"DH", USD→"$", EUR→"€", SAR→"SAR", AED→"AED",
GBP→"£", JPY→"¥"), falls back to the raw code for unknown codes,
prefixes the symbol for USD/EUR/GBP and suffixes it for all other codes;
in particular `format_currency(100, "USD")` is "$100.00" (symbol
prefixed) and `format_currency(50.5, "MAD")` is "50.50 DH". -/
theorem C6_amended_format_currency :
    currency_symbol "MAD" = "DH" ∧
    currency_symbol "USD" = "$" ∧
    currency_symbol "EUR" = "€" ∧
    currency_symbol "SAR" = "SAR" ∧
    currency_symbol "AED" = "AED" ∧
    currency_symbol "GBP" = "£" ∧
    currency_symbol "JPY" = "¥" ∧
    currency_symbol "XXX" = "XXX" ∧
    (∀ amount : ℚ, ∀ c : String, c ∈ (["USD", "EUR", "GBP"] : List String) →
      format_currency amount c true = currency_symbol c ++ formatFloat2 amount) ∧
    (∀ amount : ℚ, ∀ c : String, c ∉ (["USD", "EUR", "GBP"] : List String) →
      format_currency amount c true = formatFloat2 amount ++ " " ++ currency_symbol c) ∧
    format_currency 100 "USD" true = "$100.00" ∧
    format_currency 50.5 "MAD" true = "50.50 DH" := by
  refine ⟨by decide, by decide, by decide, by decide, by decide, by decide, by decide,
    by decide, ?_, ?_, ?_, ?_⟩
  · intro amount c hc
    unfold format_currency
    simp [hc]
  · intro amount c hc
    unfold format_currency
    simp [hc]
  · unfold format_currency
    simp only [formatFloat2_100]
    decide
  · unfold format_currency
    simp only [formatFloat2_50_5]
    decide

/-- Witness for C6 amended at the suffix rule: JPY is not one of the
prefixed codes, so its symbol follows the amount. -/
theorem C6_amended_format_currency_witness :
    format_currency 100 "JPY" true = formatFloat2 100 ++ " " ++ currency_symbol "JPY" := by
  obtain ⟨-, -, -, -, -, -, -, -, -, hsuffix, -, -⟩ := C6_amended_format_currency
  exact hsuffix 100 "JPY" (by decide)

theorem mem_list_filter_user (db : List Invoice) (uid : Nat) (status : Option String)
    (i : Invoice) (h : i ∈ list_filter db uid status) : i.user_id = uid := by
  cases status with
  | none =>
    simp only [list_filter] at h
    simpa using (List.mem_filter.mp h).2
  | some s =>
    simp only [list_filter] at h
    split at h
    · simpa using (List.mem_filter.mp h).2
    · simpa using (List.mem_filter.mp (List.mem_filter.mp h).1).2

theorem mem_list_filter_status (db : List Invoice) (uid : Nat) (s : String)
    (hs : s.isEmpty = false) (i : Invoice) (h : i ∈ list_filter db uid (some s)) :
    i.status = s := by
  simp only [list_filter] at h
  rw [if_neg (by simp [hs])] at h
  simpa using (List.mem_filter.mp h).2

theorem mem_list_invoices_result (db : List Invoice) (uid : Nat) (page page_size : Int)
    (status : Option String) (i : Invoice)
    (h : i ∈ (list_invoices db uid page page_size status).invoices) :
    i ∈ list_filter db uid status := by
  have h1 : i ∈ List.insertionSort created_desc (list_filter db uid status) :=
    List.mem_of_mem_drop (List.mem_of_mem_take h)
  exact (List.perm_insertionSort created_desc (list_filter db uid status)).mem_iff.mp h1

/-- At the handler level, the list operation coerces page values below 1
to 1 and page sizes outside [1,100] to 10, restricts rows to the
authenticated user's invoices with the optional status-equality filter,
reports the filtered row count as the total, orders the returned page by
creation time descending, slices it with offset (page−1)·page_size and
limit page_size, and the returned dict carries the items, the total, the
current page and the page size. -/
theorem list_handler_pagination_spec (db : List Invoice) (uid : Nat) (page page_size : Int)
    (status : Option String) :
    (list_invoices db uid page page_size status).page = (if page < 1 then 1 else page) ∧
    (list_invoices db uid page page_size status).page_size
        = (if page_size < 1 || page_size > 100 then 10 else page_size) ∧
    (list_invoices db uid page page_size status).total
        = (list_filter db uid status).length ∧
    (list_invoices db uid page page_size status).invoices
        = ((List.insertionSort created_desc (list_filter db uid status)).drop
            (((if page < 1 then 1 else page) - 1)
              * (if page_size < 1 || page_size > 100 then 10 else page_size)).toNat).take
            (if page_size < 1 || page_size > 100 then 10 else page_size).toNat ∧
    List.Sorted created_desc (list_invoices db uid page page_size status).invoices ∧
    (∀ i ∈ (list_invoices db uid page page_size status).invoices, i.user_id = uid) ∧
    (∀ s : String, status = some s → s.isEmpty = false →
      ∀ i ∈ (list_invoices db uid page page_size status).invoices, i.status = s) := by
  refine ⟨rfl, rfl, rfl, rfl, ?_, ?_, ?_⟩
  · have hs : List.Sorted created_desc
        (List.insertionSort created_desc (list_filter db uid status)) :=
      List.sorted_insertionSort created_desc (list_filter db uid status)
    exact List.Pairwise.sublist
      ((List.take_sublist _ _).trans (List.drop_sublist _ _)) hs
  · intro i hi
    exact mem_list_filter_user db uid status i
      (mem_list_invoices_result db uid page page_size status i hi)
  · intro s hst hse i hi
    subst hst
    exact mem_list_filter_status db uid s hse i
      (mem_list_invoices_result db uid page page_size (some s) i hi)

/-- C7: the claimed successful response never reaches a client. The
handler coerces, filters, orders and counts as the claim says
(`list_handler_pagination_spec`), but its returned dict lacks the
`total_pages` field that the wired response model `InvoiceListResponse`
declares required, so FastAPI's response validation fails and every list
request — for every page, page size and status value — surfaces as a
500, contradicting the repository's own `test_list_invoices`, which
expects 200 with the items, total and page fields. -/
theorem C7_list_route_response_validation_fails (db : List Invoice) (uid : Nat)
    (page page_size : Int) (status : Option String) :
    list_invoices_route db uid page page_size status
        = .error ⟨500, "ResponseValidationError"⟩ ∧
    list_handler_fields.contains "total_pages" = false ∧
    invoice_list_response_required_fields.contains "total_pages" = true ∧
    (list_invoices db uid page page_size status).page = (if page < 1 then 1 else page) ∧
    (list_invoices db uid page page_size status).total
        = (list_filter db uid status).length := by
  exact ⟨rfl, rfl, rfl, rfl, rfl⟩

/-- C8 counterexample: the registration schema actually wired to the
register route (schemas/auth.py) constrains the password with
`max_length=100`, so a 128-character password — which the claim says is
accepted — fails validation. -/
theorem C8_counterexample :
    (String.mk (List.replicate 128 'a')).length = 128 ∧
    register_password_ok (String.mk (List.replicate 128 'a')) = false := by
  constructor <;> decide

/-- C8 amended: registration accepts every password whose length is
between 8 and 100 characters inclusive and rejects any password shorter
than 8 or longer than 100 characters. -/
theorem C8_amended_password_length :
    (∀ p : String, register_password_ok p = true ↔ 8 ≤ p.length ∧ p.length ≤ 100) ∧
    register_password_ok (String.mk (List.replicate 8 'a')) = true ∧
    register_password_ok (String.mk (List.replicate 100 'a')) = true ∧
    register_password_ok (String.mk (List.replicate 7 'a')) = false ∧
    register_password_ok (String.mk (List.replicate 101 'a')) = false := by
  refine ⟨?_, by decide, by decide, by decide, by decide⟩
  intro p
  simp [register_password_ok]

/-- Witness for C8 amended at a concrete in-range password. -/
theorem C8_amended_password_length_witness :
    register_password_ok "password123" = true :=
  (C8_amended_password_length.1 "password123").mpr (by decide)

def c9_inv : Invoice := { baseInvoice with client_phone := some "0600123456" }

def c9_upd : InvoiceUpdate := { emptyUpdateBody with client_name := some "New Name" }

/-- C9 counterexample: `updated_at` lies outside the updatable set, yet
an update applying one field changes it — the column is declared with
`onupdate=datetime.utcnow` (models/invoice.py lines 98-103), so the
handler's commit stamps it. An update of only the client name at time 5
moves `updated_at` from 0 to 5, refuting "all fields outside the
updatable set are never modified". -/
theorem C9_counterexample :
    baseInvoice.updated_at = 0 ∧
    (applyInvoiceUpdate baseInvoice c9_upd 5).updated_at = 5 ∧
    (applyInvoiceUpdate baseInvoice c9_upd 5).updated_at ≠ baseInvoice.updated_at := by
  refine ⟨rfl, rfl, by decide⟩

/-- C9 amended: in the update handler, an omitted (null) updatable field
leaves the stored field unchanged; every field outside the updatable set
(client contact fields, status, notes, due_date) — identity, items,
financial fields, dates, file paths, email-tracking fields and
internal notes — is never modified, except the `updated_at` timestamp,
which the column's onupdate hook refreshes exactly when at least one
field is applied; and a nullable updatable field that holds a value can
never be reset to null, because only non-null request values are
applied. -/
theorem C9_update_partial_frame (inv : Invoice) (u : InvoiceUpdate) (now : Int) :
    (u.client_name = none → (applyInvoiceUpdate inv u now).client_name = inv.client_name) ∧
    (u.client_email = none
        → (applyInvoiceUpdate inv u now).client_email = inv.client_email) ∧
    (u.client_phone = none
        → (applyInvoiceUpdate inv u now).client_phone = inv.client_phone) ∧
    (u.client_address = none
        → (applyInvoiceUpdate inv u now).client_address = inv.client_address) ∧
    (u.status = none → (applyInvoiceUpdate inv u now).status = inv.status) ∧
    (u.notes = none → (applyInvoiceUpdate inv u now).notes = inv.notes) ∧
    (u.due_date = none → (applyInvoiceUpdate inv u now).due_date = inv.due_date) ∧
    (applyInvoiceUpdate inv u now).id = inv.id ∧
    (applyInvoiceUpdate inv u now).invoice_number = inv.invoice_number ∧
    (applyInvoiceUpdate inv u now).user_id = inv.user_id ∧
    (applyInvoiceUpdate inv u now).language = inv.language ∧
    (applyInvoiceUpdate inv u now).currency = inv.currency ∧
    (applyInvoiceUpdate inv u now).items = inv.items ∧
    (applyInvoiceUpdate inv u now).subtotal = inv.subtotal ∧
    (applyInvoiceUpdate inv u now).tax_rate = inv.tax_rate ∧
    (applyInvoiceUpdate inv u now).tax_amount = inv.tax_amount ∧
    (applyInvoiceUpdate inv u now).discount_rate = inv.discount_rate ∧
    (applyInvoiceUpdate inv u now).discount_amount = inv.discount_amount ∧
    (applyInvoiceUpdate inv u now).total = inv.total ∧
    (applyInvoiceUpdate inv u now).issue_date = inv.issue_date ∧
    (applyInvoiceUpdate inv u now).pdf_path = inv.pdf_path ∧
    (applyInvoiceUpdate inv u now).qr_code_path = inv.qr_code_path ∧
    (applyInvoiceUpdate inv u now).payment_link = inv.payment_link ∧
    (applyInvoiceUpdate inv u now).is_sent_email = inv.is_sent_email ∧
    (applyInvoiceUpdate inv u now).email_sent_at = inv.email_sent_at ∧
    (applyInvoiceUpdate inv u now).paid_at = inv.paid_at ∧
    (applyInvoiceUpdate inv u now).internal_notes = inv.internal_notes ∧
    (applyInvoiceUpdate inv u now).created_at = inv.created_at ∧
    (updateApplied u = true → (applyInvoiceUpdate inv u now).updated_at = now) ∧
    (updateApplied u = false
        → (applyInvoiceUpdate inv u now).updated_at = inv.updated_at) ∧
    (inv.client_phone.isSome = true
        → (applyInvoiceUpdate inv u now).client_phone.isSome = true) ∧
    (inv.notes.isSome = true → (applyInvoiceUpdate inv u now).notes.isSome = true) ∧
    (inv.due_date.isSome = true
        → (applyInvoiceUpdate inv u now).due_date.isSome = true) := by
  refine ⟨?_, ?_, ?_, ?_, ?_, ?_, ?_,
    rfl, rfl, rfl, rfl, rfl, rfl, rfl, rfl, rfl, rfl, rfl, rfl, rfl, rfl, rfl, rfl, rfl,
    rfl, rfl, rfl, rfl, ?_, ?_, ?_, ?_, ?_⟩
  · intro h; simp [applyInvoiceUpdate, h]
  · intro h; simp [applyInvoiceUpdate, h]
  · intro h; simp [applyInvoiceUpdate, h]
  · intro h; simp [applyInvoiceUpdate, h]
  · intro h; simp [applyInvoiceUpdate, h]
  · intro h; simp [applyInvoiceUpdate, h]
  · intro h; simp [applyInvoiceUpdate, h]
  · intro h; simp [applyInvoiceUpdate, h]
  · intro h; simp [applyInvoiceUpdate, h]
  · intro h
    cases hcp : u.client_phone with
    | some v => simp [applyInvoiceUpdate, hcp]
    | none => simpa [applyInvoiceUpdate, hcp] using h
  · intro h
    cases hcp : u.notes with
    | some v => simp [applyInvoiceUpdate, hcp]
    | none => simpa [applyInvoiceUpdate, hcp] using h
  · intro h
    cases hcp : u.due_date with
    | some v => simp [applyInvoiceUpdate, hcp]
    | none => simpa [applyInvoiceUpdate, hcp] using h

/-- Witness for C9 amended: an update that sets only the client name
leaves an omitted field (the client email) unchanged and stamps
`updated_at` with the commit time. -/
theorem C9_update_partial_frame_witness :
    (applyInvoiceUpdate c9_inv c9_upd 5).client_email = c9_inv.client_email ∧
    (applyInvoiceUpdate c9_inv c9_upd 5).updated_at = 5 := by
  obtain ⟨-, hemail, -, -, -, -, -, -, -, -, -, -, -, -, -, -, -, -, -, -, -, -, -, -, -,
    -, -, -, happlied, -, -, -, -⟩ := C9_update_partial_frame c9_inv c9_upd 5
  exact ⟨hemail rfl, happlied rfl⟩

/-- C10 counterexample: the claim fails twice on the code. First, the
operation never succeeds at all: the handler's dict lacks the required
`total_pages` field of the wired response model, so the request surfaces
as a 500 rather than the claimed success. Second, even at the handler
level, the status value "" (an empty but present query value) matches no
stored invoice — statuses are non-empty strings — yet Python's
`if status:` treats it as absent, so the handler returns the user's full
invoice list instead of the empty list the claim requires. -/
theorem C10_counterexample :
    list_invoices_route [baseInvoice] 1 1 10 (some "missing")
        = .error ⟨500, "ResponseValidationError"⟩ ∧
    baseInvoice.status ≠ "" ∧
    (list_invoices [baseInvoice] 1 1 10 (some "")).total = 1 ∧
    (list_invoices [baseInvoice] 1 1 10 (some "")).invoices ≠ [] := by
  refine ⟨rfl, by decide, rfl, by decide⟩

/-- C10 amended: the status filter is an unvalidated string — no string
value causes a 422 request-validation error. As the code stands no value
yields a successful response either: every list request fails
response-model validation with a 500 because the handler's dict lacks
the required `total_pages` field. At the handler level, every
**non-empty** value that matches no stored invoice of the user yields an
empty item list with total 0, while the empty string is treated as the
filter being absent. -/
theorem C10_amended_status_filter (db : List Invoice) (uid : Nat) (page page_size : Int)
    (s : String) (hne : s.isEmpty = false) (hnomatch : ∀ i ∈ db, i.status ≠ s) :
    list_invoices_route db uid page page_size (some s)
        = .error ⟨500, "ResponseValidationError"⟩ ∧
    (list_invoices db uid page page_size (some s)).total = 0 ∧
    (list_invoices db uid page page_size (some s)).invoices = [] ∧
    list_invoices db uid page page_size (some "") = list_invoices db uid page page_size none := by
  have hf : (db.filter (fun i => i.user_id == uid)).filter (fun i => i.status == s) = [] := by
    rw [List.filter_eq_nil_iff]
    intro i hi
    have hdb : i ∈ db := (List.mem_filter.mp hi).1
    simpa using hnomatch i hdb
  have hlf : list_filter db uid (some s) = [] := by
    simp only [list_filter]
    rw [if_neg (by simp [hne]), hf]
  refine ⟨rfl, ?_, ?_, rfl⟩
  · simp [list_invoices, hlf]
  · simp [list_invoices, hlf]

/-- Witness for C10 amended: a non-empty status value matching nothing
yields a handler-level total of 0 on a one-invoice database (and the
route still fails response validation). -/
theorem C10_amended_status_filter_witness :
    list_invoices_route [baseInvoice] 1 1 10 (some "archived")
        = .error ⟨500, "ResponseValidationError"⟩ ∧
    (list_invoices [baseInvoice] 1 1 10 (some "archived")).total = 0 := by
  obtain ⟨hroute, htotal, -, -⟩ :=
    C10_amended_status_filter [baseInvoice] 1 1 10 "archived" (by decide) (by decide)
  exact ⟨hroute, htotal⟩

end InvoiceGen
